import Mathlib

/-!
Verification of the BM25 search engine and design-system generator
(`design-system.js` core: `BM25`, `searchDesignCSV`, `findReasoningRule`,
`applyReasoning`, `selectBestMatch`, `generateDesignSystem`).

The JavaScript source is embedded shallowly:
* strings are Lean `String`s, rows (loosely-typed JS objects holding string
  fields) are association lists `List (String × String)`, missing fields read
  as `""` exactly as `row[col] || ''` does;
* JS `Number`s are real numbers `ℝ` (`Math.log` becomes `Real.log`); the only
  divergence is division by zero (`x/0 = 0` in Lean, `NaN`/`Infinity` in JS),
  which is unreachable in the scoring paths proved about (a query token enters
  the score sum only when present in the fitted `idf` table, which forces a
  non-empty corpus and hence `avgdl > 0` in the paths exercised here);
* the mutable `BM25` instance becomes a record threaded through `fit`;
* `Array.prototype.sort` (stable, comparator `(a, b) => b[1] - a[1]`) becomes
  the stable `List.insertionSort` descending in the score component.
-/

namespace NicheRating

/-! ### Characters and strings -/

/-- JS `\w` (ASCII word character: letter, digit or underscore). -/
def isWordChar (c : Char) : Bool := c.isAlphanum || c = '_'

/-- One character of `String(text).replace(/[^\w\s]/g, ' ')`. -/
def sanitize (c : Char) : Char :=
  if isWordChar c || c.isWhitespace then c else ' '

/-- Split a character list on runs of whitespace, dropping empty pieces
(the composite of JS `split(/\s+/)` with the filters applied afterwards:
the at most one empty string JS produces is removed by every caller). -/
def splitWsAux : List Char → List Char → List (List Char)
  | [], cur => if cur.isEmpty then [] else [cur.reverse]
  | c :: cs, cur =>
    if c.isWhitespace then
      if cur.isEmpty then splitWsAux cs [] else cur.reverse :: splitWsAux cs []
    else splitWsAux cs (c :: cur)

/-- JS `String.prototype.toLowerCase` (ASCII; the data is ASCII). -/
def lowerStr (s : String) : String := String.mk (s.toList.map Char.toLower)

/-- JS `String.prototype.toUpperCase` (ASCII). -/
def upperStr (s : String) : String := String.mk (s.toList.map Char.toUpper)

/-- JS `String.prototype.trim`. -/
def trimStr (s : String) : String :=
  String.mk (((s.toList.dropWhile Char.isWhitespace).reverse.dropWhile
    Char.isWhitespace).reverse)

/-- Does `text` start with `pat`? -/
def startsWithList : List Char → List Char → Bool
  | [], _ => true
  | _ :: _, [] => false
  | a :: pat, b :: text => a == b && startsWithList pat text

/-- Does `pat` occur contiguously inside `text`? -/
def occursIn : List Char → List Char → Bool
  | pat, [] => startsWithList pat []
  | pat, c :: rest => startsWithList pat (c :: rest) || occursIn pat rest

/-- JS `s.includes(t)`. -/
def includesStr (s t : String) : Bool := occursIn t.toList s.toList

/-! ### Association lists (JS objects with string keys) -/

/-- JS property read `m[w]` on an object modelled as an insertion-ordered
association list. -/
def lookupAL {α : Type} (m : List (String × α)) (w : String) : Option α :=
  (m.find? (fun p => p.1 == w)).map Prod.snd

/-- JS `m[w] = (m[w] || 0) + 1` (insertion order preserved, new keys at the
end, matching JS object key order for string keys). -/
def bump (m : List (String × Nat)) (w : String) : List (String × Nat) :=
  match m with
  | [] => [(w, 1)]
  | (x, c) :: rest => if x == w then (x, c + 1) :: rest else (x, c) :: bump rest w

/-- A row of a design collection: a JS object of string fields. -/
abbrev Row := List (String × String)

/-- JS `row[col] || ''`: a missing field and an empty field both read `""`. -/
def getField (row : Row) (col : String) : String := (lookupAL row col).getD ""

/-- JS `s || d` on strings (only `""` is falsy). -/
def orDefault (s d : String) : String := if s = "" then d else s

/-! ### Tokenizer -/

/-- `BM25.tokenize`: lower-case, replace every non-word non-space character
with a space, split on whitespace, keep tokens of length `> 2`. -/
def tokenize (text : String) : List String :=
  (((text.toList.map Char.toLower).map sanitize |> (splitWsAux · [])).filter
    (fun w => w.length > 2)).map String.mk

/-! ### BM25 index -/

/-- The `BM25` instance state (constructor defaults `k1 = 1.5`, `b = 0.75`). -/
structure BM25 where
  k1 : ℝ
  b : ℝ
  corpus : List (List String)
  docLengths : List Nat
  avgdl : ℝ
  docFreqs : List (String × Nat)
  idf : List (String × ℝ)
  N : Nat

/-- The `BM25` constructor. -/
def initBM25 (k1 b : ℝ) : BM25 :=
  { k1 := k1, b := b, corpus := [], docLengths := [], avgdl := 0,
    docFreqs := [], idf := [], N := 0 }

/-- First occurrences of the words of one document, in order (the `seen`
set loop of `fit`). -/
def distinctAux : List String → List String → List String
  | [], _ => []
  | w :: ws, seen =>
    if w ∈ seen then distinctAux ws seen else w :: distinctAux ws (w :: seen)

/-- `this.docFreqs`: for each document, each distinct word is counted once. -/
def computeDocFreqs (corpus : List (List String)) : List (String × Nat) :=
  corpus.foldl (fun m doc => (distinctAux doc []).foldl bump m) []

/-- `Math.log((N - freq + 0.5) / (freq + 0.5) + 1)`. -/
noncomputable def idfValue (N df : Nat) : ℝ :=
  Real.log (((N : ℝ) - (df : ℝ) + 1 / 2) / ((df : ℝ) + 1 / 2) + 1)

/-- `BM25.fit`.  Note the early `return` when the tokenized corpus is empty:
it overwrites `corpus` and `N` but leaves `docLengths`, `avgdl`, `docFreqs`
and `idf` at whatever values the instance already held. -/
noncomputable def fit (s : BM25) (documents : List String) : BM25 :=
  let corpus := documents.map tokenize
  let N := corpus.length
  if N = 0 then { s with corpus := corpus, N := N }
  else
    let docLengths := corpus.map List.length
    let avgdl := ((docLengths.sum : ℝ)) / (N : ℝ)
    let docFreqs := computeDocFreqs corpus
    let idf := docFreqs.map (fun p => (p.1, idfValue N p.2))
    { k1 := s.k1, b := s.b, corpus := corpus, docLengths := docLengths,
      avgdl := avgdl, docFreqs := docFreqs, idf := idf, N := N }

/-- One query-token contribution inside `BM25.score`:
`idfVal * num / den` with `num = tf * (k1 + 1)` and
`den = tf + k1 * (1 - b + b * docLen / avgdl)`. -/
noncomputable def termScore (k1 b avgdl docLen idfVal tf : ℝ) : ℝ :=
  idfVal * (tf * (k1 + 1)) / (tf + k1 * (1 - b + b * docLen / avgdl))

/-- `termFreqs` of one document inside `BM25.score`. -/
def termFreqsOf (doc : List String) : List (String × Nat) := doc.foldl bump []

/-- The inner loop of `BM25.score`: sum the contributions of the query tokens
that are present in the fitted `idf` table. -/
noncomputable def scoreTokens (k1 b avgdl : ℝ) (idf : List (String × ℝ))
    (tfs : List (String × Nat)) (docLen : ℝ) (queryTokens : List String) : ℝ :=
  queryTokens.foldl (fun acc token =>
    match lookupAL idf token with
    | none => acc
    | some idfVal =>
      acc + termScore k1 b avgdl docLen idfVal (((lookupAL tfs token).getD 0 : Nat) : ℝ)) 0

/-- Descending order in the score component (`(a, b) => b[1] - a[1]`). -/
def scoreDescRel (a b : Nat × ℝ) : Prop := b.2 ≤ a.2

noncomputable instance : DecidableRel scoreDescRel :=
  fun a b => inferInstanceAs (Decidable (b.2 ≤ a.2))

instance : IsTotal (Nat × ℝ) scoreDescRel := ⟨fun a b => le_total b.2 a.2⟩

instance : IsTrans (Nat × ℝ) scoreDescRel := ⟨fun _ _ _ h1 h2 => le_trans h2 h1⟩

/-- `BM25.score`: one `(index, score)` pair per corpus document, sorted by
score descending (JS sort is stable; so is insertion sort). -/
noncomputable def score (s : BM25) (query : String) : List (Nat × ℝ) :=
  let queryTokens := tokenize query
  let scores := (List.range s.corpus.length).map (fun idx =>
    (idx, scoreTokens s.k1 s.b s.avgdl s.idf (termFreqsOf (s.corpus.getD idx []))
      ((s.docLengths.getD idx 0 : Nat) : ℝ) queryTokens))
  List.insertionSort scoreDescRel scores

/-! ### Collection search (`DESIGN_CSV_CONFIG`, `searchDesignCSV`) -/

/-- One entry of `DESIGN_CSV_CONFIG`. -/
structure CSVConfig where
  file : String
  searchCols : List String
  outputCols : List String

/-- `DESIGN_CSV_CONFIG` as a lookup on the domain name. -/
def DESIGN_CSV_CONFIG (domain : String) : Option CSVConfig :=
  if domain = "style" then
    some { file := "styles.json",
           searchCols := ["Style Category", "Keywords", "Best For", "Type"],
           outputCols := ["Style Category", "Type", "Keywords", "Primary Colors",
             "Effects & Animation", "Best For", "Performance", "Accessibility"] }
  else if domain = "color" then
    some { file := "colors.json",
           searchCols := ["Product Type", "Keywords", "Notes"],
           outputCols := ["Product Type", "Keywords", "Primary (Hex)", "Secondary (Hex)",
             "CTA (Hex)", "Background (Hex)", "Text (Hex)", "Notes"] }
  else if domain = "landing" then
    some { file := "landing.json",
           searchCols := ["Pattern Name", "Keywords", "Conversion Optimization", "Section Order"],
           outputCols := ["Pattern Name", "Keywords", "Section Order",
             "Primary CTA Placement", "Color Strategy", "Conversion Optimization"] }
  else if domain = "product" then
    some { file := "products.json",
           searchCols := ["Product Type", "Keywords", "Primary Style Recommendation",
             "Key Considerations"],
           outputCols := ["Product Type", "Keywords", "Primary Style Recommendation",
             "Color Palette Focus"] }
  else if domain = "typography" then
    some { file := "typography.json",
           searchCols := ["Font Pairing Name", "Category", "Mood/Style Keywords", "Best For",
             "Heading Font", "Body Font"],
           outputCols := ["Font Pairing Name", "Heading Font", "Body Font",
             "Mood/Style Keywords", "Best For", "Google Fonts URL", "CSS Import"] }
  else none

/-- The searchable text of every row: the configured search columns joined
with a single space (`config.searchCols.map(col => row[col] || '').join(' ')`). -/
def searchDocuments (config : CSVConfig) (data : List Row) : List String :=
  data.map (fun row =>
    String.intercalate " " (config.searchCols.map (fun col => getField row col)))

/-- `result = {}; outputCols.forEach(col => { if (row[col]) result[col] = row[col] })`:
the output columns in order, skipping falsy (empty or missing) fields. -/
def projectRow (cols : List String) (row : Row) : Row :=
  (cols.map (fun col => (col, getField row col))).filter (fun p => p.2 != "")

/-- `searchDesignCSV(domain, query, maxResults)`, parameterized by the loaded
collection data (`loadDesignData` reads static JSON files from disk; the
search logic is independent of their contents). -/
noncomputable def searchDesignCSV (loadData : String → List Row)
    (domain query : String) (maxResults : Nat) : List Row :=
  match DESIGN_CSV_CONFIG domain with
  | none => []
  | some config =>
    let data := loadData config.file
    let ranked := score (fit (initBM25 1.5 0.75) (searchDocuments config data)) query
    ((ranked.take maxResults).filter (fun p => decide (0 < p.2))).map (fun p =>
      projectRow config.outputCols (data.getD p.1 []))

/-! ### Reasoning matcher (`findReasoningRule`, `applyReasoning`) -/

/-- `(rule.UI_Category || '').toLowerCase()`. -/
def ruleCategoryLower (rule : Row) : String := lowerStr (getField rule "UI_Category")

/-- Tier-3 keyword fragments: every slash and hyphen of the rule category is
replaced by a space and the result split on whitespace (empty fragments are
dropped by `splitWsAux`; JS drops them via the `kw &&` guard). -/
def splitKeywords (uiCat : String) : List String :=
  (splitWsAux (uiCat.toList.map (fun c => if c = '/' || c = '-' then ' ' else c)) []).map
    String.mk

/-- `findReasoningRule`: three-tier cascade, first hit wins.
Tier 1 exact (case-insensitive), tier 2 substring either direction,
tier 3 any keyword fragment of the rule category inside the input. -/
def findReasoningRule (category : String) (reasoningData : List Row) : Option Row :=
  let catLower := lowerStr category
  match reasoningData.find? (fun rule => ruleCategoryLower rule == catLower) with
  | some r => some r
  | none =>
    match reasoningData.find? (fun rule =>
        includesStr (ruleCategoryLower rule) catLower ||
        includesStr catLower (ruleCategoryLower rule)) with
    | some r => some r
    | none =>
      reasoningData.find? (fun rule =>
        (splitKeywords (ruleCategoryLower rule)).any
          (fun kw => kw != "" && includesStr catLower kw))

/-- The record `applyReasoning` returns.  The JS `decisionRules` field holds
the `JSON.parse` of a free-form blob never read by the generator; it is kept
here as the raw `Decision_Rules` text (absent on the default record). -/
structure Reasoning where
  pattern : String
  stylePriority : List String
  colorMood : String
  typographyMood : String
  keyEffects : String
  antiPatterns : String
  decisionRules : Option String
  severity : String

/-- The fixed safe default returned when no rule matches. -/
def defaultReasoning : Reasoning :=
  { pattern := "Hero + Features + CTA",
    stylePriority := ["Minimalism", "Flat Design"],
    colorMood := "Professional",
    typographyMood := "Clean",
    keyEffects := "Subtle hover transitions",
    antiPatterns := "",
    decisionRules := none,
    severity := "MEDIUM" }

/-- `(rule.Style_Priority || '').split('+').map(s => s.trim()).filter(Boolean)`. -/
def splitPlus (s : String) : List String :=
  ((s.splitOn "+").map trimStr).filter (fun t => t != "")

/-- `applyReasoning`. -/
def applyReasoning (category : String) (reasoningData : List Row) : Reasoning :=
  match findReasoningRule category reasoningData with
  | none => defaultReasoning
  | some rule =>
    { pattern := getField rule "Recommended_Pattern",
      stylePriority := splitPlus (getField rule "Style_Priority"),
      colorMood := getField rule "Color_Mood",
      typographyMood := getField rule "Typography_Mood",
      keyEffects := getField rule "Key_Effects",
      antiPatterns := getField rule "Anti_Patterns",
      decisionRules := some (getField rule "Decision_Rules"),
      severity := orDefault (getField rule "Severity") "MEDIUM" }

/-! ### Selection heuristic (`selectBestMatch`) -/

/-- The first-pass test for one priority keyword against one result:
`pLower.includes(styleName) || styleName.includes(pLower)`. -/
def matchKeyword (priority : String) (result : Row) : Bool :=
  let pLower := lowerStr (trimStr priority)
  let styleName := lowerStr (getField result "Style Category")
  includesStr pLower styleName || includesStr styleName pLower

/-- The first pass of `selectBestMatch`: for each priority keyword in order,
the first result (in result order) it matches. -/
def firstPass (results : List Row) : List String → Option Row
  | [] => none
  | k :: ks =>
    match results.find? (matchKeyword k) with
    | some r => some r
    | none => firstPass results ks

/-- `JSON.stringify(result)` on a flat string-field object (the JS escaping
of special characters inside field text is not modelled; no claim reads it). -/
def jsonStringify (row : Row) : String :=
  "\x7b" ++
    String.intercalate ","
      (row.map (fun p => "\"" ++ p.1 ++ "\":\"" ++ p.2 ++ "\"")) ++
  "\x7d"

/-- The second-pass weighted score of one result: +10 on the style name,
else +3 on the keyword tags, else +1 anywhere in the serialized row. -/
def secondPassScore (priorityKeywords : List String) (result : Row) : Nat :=
  priorityKeywords.foldl (fun sc kw =>
    let kwLower := lowerStr (trimStr kw)
    if includesStr (lowerStr (getField result "Style Category")) kwLower then sc + 10
    else if includesStr (lowerStr (getField result "Keywords")) kwLower then sc + 3
    else if includesStr (lowerStr (jsonStringify result)) kwLower then sc + 1
    else sc) 0

/-- Descending order in the second-pass score (`(a, b) => b.score - a.score`). -/
def natDescRel (a b : Nat × Row) : Prop := b.1 ≤ a.1

instance : DecidableRel natDescRel := fun a b => inferInstanceAs (Decidable (b.1 ≤ a.1))

/-- `selectBestMatch(results, priorityKeywords)`. -/
def selectBestMatch (results : List Row) (priorityKeywords : List String) : Row :=
  match results with
  | [] => []
  | r0 :: rest =>
    if priorityKeywords.isEmpty then r0
    else
      match firstPass (r0 :: rest) priorityKeywords with
      | some r => r
      | none =>
        let scored := (r0 :: rest).map (fun result =>
          (secondPassScore priorityKeywords result, result))
        let sorted := List.insertionSort natDescRel scored
        let top := sorted.headD (0, r0)
        if 0 < top.1 then top.2 else r0

/-! ### Design composer (`generateDesignSystem`) -/

structure DSPattern where
  name : String
  sections : String
  ctaPlacement : String
  colorStrategy : String
  conversion : String

structure DSStyle where
  name : String
  type : String
  effects : String
  keywords : String
  bestFor : String
  performance : String
  accessibility : String

structure DSColors where
  primary : String
  secondary : String
  cta : String
  background : String
  text : String
  notes : String

structure DSTypography where
  heading : String
  body : String
  mood : String
  bestFor : String
  googleFontsUrl : String
  cssImport : String

structure DesignSystem where
  projectName : String
  category : String
  pattern : DSPattern
  style : DSStyle
  colors : DSColors
  typography : DSTypography
  keyEffects : String
  antiPatterns : String
  severity : String

/-- `generateDesignSystem(query, projectName)`, parameterized by the loaded
collection data exactly as `searchDesignCSV` is. -/
noncomputable def generateDesignSystem (loadData : String → List Row)
    (query projectName : String) : DesignSystem :=
  let reasoningData := loadData "ui-reasoning.json"
  let productResults := searchDesignCSV loadData "product" query 1
  let category := orDefault (getField (productResults.getD 0 []) "Product Type") "General"
  let reasoning := applyReasoning category reasoningData
  let stylePriority := reasoning.stylePriority
  let styleQuery :=
    if stylePriority.isEmpty then query
    else query ++ " " ++ String.intercalate " " (stylePriority.take 2)
  let styleResults := searchDesignCSV loadData "style" styleQuery 3
  let colorResults := searchDesignCSV loadData "color" query 2
  let landingResults := searchDesignCSV loadData "landing" query 2
  let typographyResults := searchDesignCSV loadData "typography" query 2
  let bestStyle := selectBestMatch styleResults stylePriority
  let bestColor := colorResults.getD 0 []
  let bestTypography := typographyResults.getD 0 []
  let bestLanding := landingResults.getD 0 []
  let styleEffects := getField bestStyle "Effects & Animation"
  let combinedEffects := orDefault styleEffects reasoning.keyEffects
  { projectName := orDefault projectName (upperStr query),
    category := category,
    pattern :=
      { name := orDefault (getField bestLanding "Pattern Name")
          (orDefault reasoning.pattern "Hero + Features + CTA"),
        sections := orDefault (getField bestLanding "Section Order") "Hero > Features > CTA",
        ctaPlacement := orDefault (getField bestLanding "Primary CTA Placement") "Above fold",
        colorStrategy := getField bestLanding "Color Strategy",
        conversion := getField bestLanding "Conversion Optimization" },
    style :=
      { name := orDefault (getField bestStyle "Style Category") "Minimalism",
        type := orDefault (getField bestStyle "Type") "General",
        effects := styleEffects,
        keywords := getField bestStyle "Keywords",
        bestFor := getField bestStyle "Best For",
        performance := getField bestStyle "Performance",
        accessibility := getField bestStyle "Accessibility" },
    colors :=
      { primary := orDefault (getField bestColor "Primary (Hex)") "#2563EB",
        secondary := orDefault (getField bestColor "Secondary (Hex)") "#3B82F6",
        cta := orDefault (getField bestColor "CTA (Hex)") "#F97316",
        background := orDefault (getField bestColor "Background (Hex)") "#F8FAFC",
        text := orDefault (getField bestColor "Text (Hex)") "#1E293B",
        notes := getField bestColor "Notes" },
    typography :=
      { heading := orDefault (getField bestTypography "Heading Font") "Inter",
        body := orDefault (getField bestTypography "Body Font") "Inter",
        mood := orDefault (getField bestTypography "Mood/Style Keywords")
          reasoning.typographyMood,
        bestFor := getField bestTypography "Best For",
        googleFontsUrl := getField bestTypography "Google Fonts URL",
        cssImport := getField bestTypography "CSS Import" },
    keyEffects := combinedEffects,
    antiPatterns := reasoning.antiPatterns,
    severity := reasoning.severity }

/-- The empty collections set: every file loads as the empty row list. -/
def emptyCollections : String → List Row := fun _ => []

/-! ### Helper lemmas -/

/-- Both branches of `fit` store the tokenized documents as the corpus. -/
lemma fit_corpus (s : BM25) (docs : List String) :
    (fit s docs).corpus = docs.map tokenize := by
  unfold fit
  dsimp only
  split <;> rfl

/-- `score` output is sorted descending in the score component. -/
lemma score_sorted (s : BM25) (query : String) :
    List.Sorted scoreDescRel (score s query) := by
  simp only [score]
  exact List.sorted_insertionSort scoreDescRel _

/-- The indices in the `score` output are a permutation of `0 .. N-1`. -/
lemma score_perm_aux (s : BM25) (query : String) :
    List.Perm ((score s query).map Prod.fst) (List.range s.corpus.length) := by
  simp only [score]
  refine ((List.perm_insertionSort _ _).map _).trans ?_
  rw [List.map_map]
  simp [Function.comp_def]

/-- `score` yields exactly one entry per corpus document. -/
lemma score_length (s : BM25) (query : String) :
    (score s query).length = s.corpus.length := by
  simp only [score]
  rw [(List.perm_insertionSort _ _).length_eq, List.length_map, List.length_range]

/-- `searchDesignCSV` on a known collection, unfolded. -/
lemma searchDesignCSV_some (loadData : String → List Row) (domain query : String)
    (maxResults : Nat) (config : CSVConfig) (hcfg : DESIGN_CSV_CONFIG domain = some config) :
    searchDesignCSV loadData domain query maxResults =
      (((score (fit (initBM25 1.5 0.75) (searchDocuments config (loadData config.file)))
          query).take maxResults).filter (fun p => decide (0 < p.2))).map
        (fun p => projectRow config.outputCols ((loadData config.file).getD p.1 [])) := by
  unfold searchDesignCSV
  rw [hcfg]

/-- `searchDesignCSV` on an unknown collection name. -/
lemma searchDesignCSV_none (loadData : String → List Row) (domain query : String)
    (maxResults : Nat) (hcfg : DESIGN_CSV_CONFIG domain = none) :
    searchDesignCSV loadData domain query maxResults = [] := by
  unfold searchDesignCSV
  rw [hcfg]

/-- The empty pattern occurs in every text (JS `s.includes('')` is `true`). -/
lemma occursIn_nil (l : List Char) : occursIn [] l = true := by
  cases l <;> rfl

/-- A successful association-list lookup comes from a list member. -/
lemma lookupAL_mem {α : Type} {m : List (String × α)} {w : String} {v : α}
    (h : lookupAL m w = some v) : ∃ p ∈ m, p.2 = v := by
  unfold lookupAL at h
  cases hf : m.find? (fun p => p.1 == w) with
  | none => rw [hf] at h; simp at h
  | some p =>
    rw [hf] at h
    simp only [Option.map_some'] at h
    exact ⟨p, List.mem_of_find?_eq_some hf, by simpa using h⟩

/-- Accumulator monotonicity for the `score` summation loop. -/
lemma foldl_le_foldl {f g : ℝ → String → ℝ}
    (hfg : ∀ a1 a2 t, a1 ≤ a2 → f a1 t ≤ g a2 t) :
    ∀ (l : List String) (a1 a2 : ℝ), a1 ≤ a2 → l.foldl f a1 ≤ l.foldl g a2 := by
  intro l
  induction l with
  | nil => intro a1 a2 h; exact h
  | cons t ts ih => intro a1 a2 h; exact ih _ _ (hfg a1 a2 t h)

/-- One BM25 term contribution is monotone in the term frequency, given a
non-negative idf weight, the default-style parameter ranges `k1 > 0`,
`0 ≤ b ≤ 1`, a non-negative document length and a positive average length. -/
lemma termScore_mono_tf (k1 b avgdl docLen v tf1 tf2 : ℝ)
    (hv : 0 ≤ v) (hk1 : 0 < k1) (hb0 : 0 ≤ b) (hb1 : b ≤ 1)
    (hdl : 0 ≤ docLen) (havg : 0 < avgdl) (h0 : 0 ≤ tf1) (h : tf1 ≤ tf2) :
    termScore k1 b avgdl docLen v tf1 ≤ termScore k1 b avgdl docLen v tf2 := by
  set c := k1 * (1 - b + b * docLen / avgdl) with hc_def
  have hc : 0 ≤ c := by
    have h1 : 0 ≤ b * docLen / avgdl := by positivity
    have h2 : 0 ≤ 1 - b := by linarith
    have : 0 ≤ 1 - b + b * docLen / avgdl := by linarith
    exact mul_nonneg hk1.le this
  have key : tf1 / (tf1 + c) ≤ tf2 / (tf2 + c) := by
    rcases eq_or_lt_of_le (add_nonneg h0 hc) with h1 | h1
    · have htf1 : tf1 = 0 := by linarith
      have hc0 : c = 0 := by linarith
      have h2 : 0 ≤ tf2 := le_trans h0 h
      calc tf1 / (tf1 + c) = 0 := by rw [htf1, hc0]; norm_num
        _ ≤ tf2 / (tf2 + c) := div_nonneg h2 (by linarith)
    · have h2 : 0 < tf2 + c := by linarith
      rw [div_le_div_iff₀ h1 h2]
      nlinarith [mul_le_mul_of_nonneg_right h hc]
  have e1 : termScore k1 b avgdl docLen v tf1 = v * (k1 + 1) * (tf1 / (tf1 + c)) := by
    simp only [termScore, hc_def]
    ring
  have e2 : termScore k1 b avgdl docLen v tf2 = v * (k1 + 1) * (tf2 / (tf2 + c)) := by
    simp only [termScore, hc_def]
    ring
  rw [e1, e2]
  have : 0 ≤ v * (k1 + 1) := mul_nonneg hv (by linarith)
  exact mul_le_mul_of_nonneg_left key this

/-! ### Claim theorems -/

/-- C1: for every non-empty document list passed to `fit` and every query,
`score` returns exactly one `(index, score)` pair per input document, the
indices covering every original document index exactly once, and the output
is sorted in descending order of score (zero-score documents included). -/
theorem bm25_score_one_entry_per_doc_sorted (k1 b : ℝ) (docs : List String)
    (query : String) (h : docs ≠ []) :
    (score (fit (initBM25 k1 b) docs) query).length = docs.length ∧
    List.Perm ((score (fit (initBM25 k1 b) docs) query).map Prod.fst)
      (List.range docs.length) ∧
    List.Sorted scoreDescRel (score (fit (initBM25 k1 b) docs) query) := by
  refine ⟨?_, ?_, score_sorted _ _⟩
  · rw [score_length, fit_corpus, List.length_map]
  · have hp := score_perm_aux (fit (initBM25 k1 b) docs) query
    rwa [fit_corpus, List.length_map] at hp

theorem bm25_score_one_entry_per_doc_sorted_witness :
    (["hello world"] : List String) ≠ [] ∧
    ((score (fit (initBM25 1.5 0.75) ["hello world"]) "hello").length = 1 ∧
     List.Perm ((score (fit (initBM25 1.5 0.75) ["hello world"]) "hello").map Prod.fst)
       (List.range 1) ∧
     List.Sorted scoreDescRel (score (fit (initBM25 1.5 0.75) ["hello world"]) "hello")) :=
  ⟨by decide, bm25_score_one_entry_per_doc_sorted 1.5 0.75 ["hello world"] "hello" (by decide)⟩

/-- C2: `searchDesignCSV` returns at most `maxResults` records, every returned
record comes from a document whose BM25 score was strictly positive (so fewer
records, possibly zero, are returned when fewer pass the filter), and an
unknown collection name yields the empty sequence. -/
theorem searchDesignCSV_bounds_and_positive_scores (loadData : String → List Row)
    (domain query : String) (maxResults : Nat) :
    (searchDesignCSV loadData domain query maxResults).length ≤ maxResults ∧
    (DESIGN_CSV_CONFIG domain = none →
      searchDesignCSV loadData domain query maxResults = []) ∧
    (∀ config, DESIGN_CSV_CONFIG domain = some config →
      ∀ r ∈ searchDesignCSV loadData domain query maxResults,
        ∃ idx sc,
          (idx, sc) ∈ score (fit (initBM25 1.5 0.75)
              (searchDocuments config (loadData config.file))) query ∧
          0 < sc ∧
          r = projectRow config.outputCols ((loadData config.file).getD idx [])) := by
  refine ⟨?_, ?_, ?_⟩
  · cases hcfg : DESIGN_CSV_CONFIG domain with
    | none => simp [searchDesignCSV_none loadData domain query maxResults hcfg]
    | some config =>
      rw [searchDesignCSV_some loadData domain query maxResults config hcfg, List.length_map]
      exact le_trans (List.length_filter_le _ _) (List.length_take_le _ _)
  · exact searchDesignCSV_none loadData domain query maxResults
  · intro config hcfg r hr
    rw [searchDesignCSV_some loadData domain query maxResults config hcfg] at hr
    rw [List.mem_map] at hr
    obtain ⟨p, hp, rfl⟩ := hr
    rw [List.mem_filter] at hp
    obtain ⟨htake, hpos⟩ := hp
    exact ⟨p.1, p.2, List.take_subset _ _ htake, by simpa using hpos, rfl⟩

theorem searchDesignCSV_bounds_and_positive_scores_witness :
    searchDesignCSV emptyCollections "nosuch" "query" 3 = [] :=
  (searchDesignCSV_bounds_and_positive_scores emptyCollections "nosuch" "query" 3).2.1 rfl

/-- C3: a category equal case-insensitively to some rule's `UI_Category`
makes `findReasoningRule` return a rule with that category; the empty rule
list returns `none`; and `applyReasoning` with no matching rule returns the
fixed safe default (pattern `Hero + Features + CTA`, style priority
`[Minimalism, Flat Design]`, severity `MEDIUM`). -/
theorem findReasoningRule_match_and_default (category : String) (rules : List Row) :
    ((∃ ru ∈ rules, ruleCategoryLower ru = lowerStr category) →
      ∃ r, findReasoningRule category rules = some r ∧
        ruleCategoryLower r = lowerStr category) ∧
    findReasoningRule category [] = none ∧
    (findReasoningRule category rules = none →
      applyReasoning category rules = defaultReasoning ∧
      (applyReasoning category rules).pattern = "Hero + Features + CTA" ∧
      (applyReasoning category rules).stylePriority = ["Minimalism", "Flat Design"] ∧
      (applyReasoning category rules).severity = "MEDIUM") := by
  refine ⟨?_, rfl, ?_⟩
  · rintro ⟨ru, hru, heq⟩
    have hsome : (rules.find? (fun rule => ruleCategoryLower rule == lowerStr category)).isSome :=
      List.find?_isSome.mpr ⟨ru, hru, by simp [heq]⟩
    obtain ⟨r, hr⟩ := Option.isSome_iff_exists.mp hsome
    refine ⟨r, ?_, by simpa using List.find?_some hr⟩
    unfold findReasoningRule
    dsimp only
    rw [hr]
  · intro h
    have hd : applyReasoning category rules = defaultReasoning := by
      unfold applyReasoning
      rw [h]
    exact ⟨hd, by rw [hd]; rfl, by rw [hd]; rfl, by rw [hd]; rfl⟩

theorem findReasoningRule_match_and_default_witness :
    ∃ r, findReasoningRule "Saas" [[("UI_Category", "saas")]] = some r ∧
      ruleCategoryLower r = lowerStr "Saas" :=
  (findReasoningRule_match_and_default "Saas" [[("UI_Category", "saas")]]).1 (by decide)

/-- C4: with every collection empty, `generateDesignSystem "fitness app"
"FitCo"` evaluates to a full record (the embedding is total, so no error is
possible) whose `colors.primary` is the documented default `#2563EB`; the
category falls back to `General` and the project name is kept. -/
theorem generateDesignSystem_empty_collections_defaults :
    (generateDesignSystem emptyCollections "fitness app" "FitCo").colors.primary = "#2563EB" ∧
    (generateDesignSystem emptyCollections "fitness app" "FitCo").category = "General" ∧
    (generateDesignSystem emptyCollections "fitness app" "FitCo").projectName = "FitCo" :=
  ⟨rfl, rfl, rfl⟩

/-- C5 counterexample: refitting a fitted index on the empty document list
does not reproduce the freshly constructed state — the early return of `fit`
leaves the stale `docLengths` (and `avgdl`, `docFreqs`, `idf`) in place, so
the derived statistics are not all empty after `fit []`. -/
theorem fit_refit_empty_stale_counterexample :
    (fit (fit (initBM25 1.5 0.75) ["alpha"]) []).docLengths ≠
      (fit (initBM25 1.5 0.75) []).docLengths := by
  decide

/-- C5 amended: a fit on a NON-empty document list always equals the fit of a
freshly constructed index (with the same parameters) on those documents; after
`fit []` scoring returns the empty sequence for every query; and on a freshly
constructed index `fit []` leaves every derived statistic empty/zero.  (As the
counterexample shows, `fit []` on a previously fitted index retains the stale
derived statistics, so the claim's unrestricted refit equality fails.) -/
theorem fit_fresh_and_empty_spec (s : BM25) (docs : List String) (query : String)
    (k1 b : ℝ) :
    (docs ≠ [] → fit s docs = fit (initBM25 s.k1 s.b) docs) ∧
    score (fit s []) query = [] ∧
    (fit (initBM25 k1 b) []).docLengths = [] ∧
    (fit (initBM25 k1 b) []).avgdl = 0 ∧
    (fit (initBM25 k1 b) []).docFreqs = [] ∧
    (fit (initBM25 k1 b) []).idf = [] ∧
    (fit (initBM25 k1 b) []).N = 0 ∧
    (fit (initBM25 k1 b) []).corpus = [] := by
  refine ⟨?_, rfl, rfl, rfl, rfl, rfl, rfl, rfl⟩
  intro h
  have hne : ¬((docs.map tokenize).length = 0) := by
    simpa [List.length_eq_zero] using h
  unfold fit
  dsimp only
  rw [if_neg hne, if_neg hne]
  rfl

theorem fit_fresh_and_empty_spec_witness :
    fit (initBM25 2 (1 / 2)) ["hey"] =
      fit (initBM25 (initBM25 2 (1 / 2)).k1 (initBM25 2 (1 / 2)).b) ["hey"] :=
  (fit_fresh_and_empty_spec (initBM25 2 (1 / 2)) ["hey"] "q" 1 1).1 (by decide)

/-- C6: increasing one query token's term frequency while holding the document
length and all other statistics fixed never decreases the document's BM25
score (`scoreTokens` is the per-document score summation of `score`); the
hypotheses are the fitted-corpus facts: non-negative idf weights, the
parameter ranges `k1 > 0`, `0 ≤ b ≤ 1`, a non-negative document length and a
positive average document length. -/
theorem bm25_score_monotone_in_tf (k1 b avgdl docLen : ℝ) (idf : List (String × ℝ))
    (tfs1 tfs2 : List (String × Nat)) (qts : List String) (w : String)
    (hidf : ∀ p ∈ idf, 0 ≤ p.2) (hk1 : 0 < k1) (hb0 : 0 ≤ b) (hb1 : b ≤ 1)
    (hdl : 0 ≤ docLen) (havg : 0 < avgdl)
    (hw : (lookupAL tfs1 w).getD 0 ≤ (lookupAL tfs2 w).getD 0)
    (hother : ∀ t, t ≠ w → lookupAL tfs1 t = lookupAL tfs2 t) :
    scoreTokens k1 b avgdl idf tfs1 docLen qts ≤
      scoreTokens k1 b avgdl idf tfs2 docLen qts := by
  have hpt : ∀ t : String,
      (((lookupAL tfs1 t).getD 0 : Nat) : ℝ) ≤ (((lookupAL tfs2 t).getD 0 : Nat) : ℝ) := by
    intro t
    by_cases ht : t = w
    · subst ht; exact_mod_cast hw
    · rw [hother t ht]
  unfold scoreTokens
  refine foldl_le_foldl ?_ qts 0 0 le_rfl
  intro a1 a2 t h
  cases hlk : lookupAL idf t with
  | none => exact h
  | some v =>
    have hv : 0 ≤ v := by
      obtain ⟨p, hp, hpv⟩ := lookupAL_mem hlk
      rw [← hpv]; exact hidf p hp
    have htf1 : (0 : ℝ) ≤ (((lookupAL tfs1 t).getD 0 : Nat) : ℝ) := by positivity
    exact add_le_add h
      (termScore_mono_tf k1 b avgdl docLen v _ _ hv hk1 hb0 hb1 hdl havg htf1 (hpt t))

theorem bm25_score_monotone_in_tf_witness :
    scoreTokens 1.5 0.75 1 [("app", 1)] [("app", 1)] 1 ["app"] ≤
      scoreTokens 1.5 0.75 1 [("app", 1)] [("app", 2)] 1 ["app"] :=
  bm25_score_monotone_in_tf 1.5 0.75 1 1 [("app", 1)] [("app", 1)] [("app", 2)] ["app"] "app"
    (by intro p hp; simp only [List.mem_singleton] at hp; subst hp; norm_num)
    (by norm_num) (by norm_num) (by norm_num) (by norm_num) (by norm_num)
    (by decide)
    (by
      intro t ht
      have hb : ("app" == t) = false := beq_eq_false_iff_ne.mpr (Ne.symm ht)
      simp [lookupAL, List.find?, hb])

/-- C7: the IDF value `ln((N - df + 0.5) / (df + 0.5) + 1)` computed in `fit`
is non-negative for every document frequency `df` with `1 ≤ df ≤ N`. -/
theorem idfValue_nonneg_of_df_le_N (N df : Nat) (h1 : 1 ≤ df) (h2 : df ≤ N) :
    0 ≤ idfValue N df := by
  unfold idfValue
  apply Real.log_nonneg
  have hdf : (df : ℝ) ≤ (N : ℝ) := Nat.cast_le.mpr h2
  have hnum : 0 ≤ (N : ℝ) - (df : ℝ) + 1 / 2 := by linarith
  have hden : (0 : ℝ) < (df : ℝ) + 1 / 2 := by positivity
  linarith [div_nonneg hnum hden.le]

theorem idfValue_nonneg_of_df_le_N_witness : 0 ≤ idfValue 2 1 :=
  idfValue_nonneg_of_df_le_N 2 1 (by decide) (by decide)

/-- C8: for a document longer than the corpus average, raising `b` (toward 1)
never increases its BM25 term contribution relative to a document with the
same term frequency and exactly average length — the average-length term is
independent of `b` while the longer document's contribution is antitone in
`b` (`termScore` is the per-token contribution inside `score`). -/
theorem termScore_b_increases_length_penalty (k1 b1 b2 v tf docLen avgdl : ℝ)
    (hv : 0 ≤ v) (hk1 : 0 < k1) (htf : 0 ≤ tf) (havg : 0 < avgdl) (hdoc : avgdl < docLen)
    (hb1 : 0 ≤ b1) (hb12 : b1 ≤ b2) (hb2 : b2 ≤ 1) :
    termScore k1 b2 avgdl docLen v tf - termScore k1 b2 avgdl avgdl v tf ≤
      termScore k1 b1 avgdl docLen v tf - termScore k1 b1 avgdl avgdl v tf := by
  have havg' : avgdl ≠ 0 := ne_of_gt havg
  have heq : ∀ b : ℝ, termScore k1 b avgdl avgdl v tf = v * (tf * (k1 + 1)) / (tf + k1) := by
    intro b
    unfold termScore
    have hden : tf + k1 * (1 - b + b * avgdl / avgdl) = tf + k1 := by
      rw [mul_div_assoc, div_self havg']
      ring
    rw [hden]
  rw [heq b1, heq b2]
  apply sub_le_sub_right
  have hr : (1 : ℝ) ≤ docLen / avgdl := (one_le_div havg).mpr hdoc.le
  have hden1 : 0 < tf + k1 * (1 - b1 + b1 * docLen / avgdl) := by
    have e : b1 * docLen / avgdl = b1 * (docLen / avgdl) := by ring
    rw [e]
    have h1 : b1 * 1 ≤ b1 * (docLen / avgdl) := mul_le_mul_of_nonneg_left hr hb1
    have h2 : (1 : ℝ) ≤ 1 - b1 + b1 * (docLen / avgdl) := by linarith
    have h3 : k1 * 1 ≤ k1 * (1 - b1 + b1 * (docLen / avgdl)) :=
      mul_le_mul_of_nonneg_left h2 hk1.le
    linarith
  have hmono : tf + k1 * (1 - b1 + b1 * docLen / avgdl) ≤
      tf + k1 * (1 - b2 + b2 * docLen / avgdl) := by
    have e1 : b1 * docLen / avgdl = b1 * (docLen / avgdl) := by ring
    have e2 : b2 * docLen / avgdl = b2 * (docLen / avgdl) := by ring
    rw [e1, e2]
    have h4 : (b2 - b1) * 1 ≤ (b2 - b1) * (docLen / avgdl) :=
      mul_le_mul_of_nonneg_left hr (by linarith)
    have hXY : 1 - b1 + b1 * (docLen / avgdl) ≤ 1 - b2 + b2 * (docLen / avgdl) := by nlinarith
    have h5 := mul_le_mul_of_nonneg_left hXY hk1.le
    linarith
  have hnum : 0 ≤ v * (tf * (k1 + 1)) := mul_nonneg hv (mul_nonneg htf (by linarith))
  unfold termScore
  exact div_le_div_of_nonneg_left hnum hden1 hmono

theorem termScore_b_increases_length_penalty_witness :
    termScore 1.5 1 1 2 1 1 - termScore 1.5 1 1 1 1 1 ≤
      termScore 1.5 0 1 2 1 1 - termScore 1.5 0 1 1 1 1 :=
  termScore_b_increases_length_penalty 1.5 0 1 1 1 2 1 (by norm_num) (by norm_num)
    (by norm_num) (by norm_num) (by norm_num) (by norm_num) (by norm_num) (by norm_num)

/-- C9: `selectBestMatch` on a non-empty result list with an empty priority
list returns the first result, and on an empty result list (whatever the
priorities) returns the empty record. -/
theorem selectBestMatch_empty_inputs (r0 : Row) (rest : List Row)
    (keywords : List String) :
    selectBestMatch (r0 :: rest) [] = r0 ∧ selectBestMatch [] keywords = [] :=
  ⟨rfl, rfl⟩

/-- C10 counterexample: the claim predicts that when some result has an
absent/empty `Style Category` the FIRST SUCH result is returned; but an
earlier result whose non-empty style name substring-matches the first
priority keyword wins instead (here `"minimalism".includes("minimal")` fires
on the first row before the empty-named second row is reached). -/
theorem selectBestMatch_empty_name_not_first_counterexample :
    selectBestMatch [[("Style Category", "minimal")], ([] : Row)] ["minimalism"] =
      [("Style Category", "minimal")] ∧
    selectBestMatch [[("Style Category", "minimal")], ([] : Row)] ["minimalism"] ≠
      ([] : Row) := by
  constructor
  · decide
  · decide

/-- C10 amended: when the priority list is non-empty and some result's
`Style Category` is absent or empty, the first pass fires already on the very
first priority keyword (the empty name is a substring of every keyword), so
`selectBestMatch` returns the first result in list order whose style name is
empty or in substring relation (either direction) with the first keyword —
which may precede the first empty-named result — and the BM25-rank fallback
and the weighted second pass never run. -/
theorem selectBestMatch_empty_name_first_pass (results : List Row) (k : String)
    (ks : List String) (r : Row) (hr : r ∈ results)
    (hempty : getField r "Style Category" = "") :
    ∃ r0, results.find? (matchKeyword k) = some r0 ∧
      selectBestMatch results (k :: ks) = r0 := by
  have hmatch : matchKeyword k r = true := by
    unfold matchKeyword
    rw [hempty]
    simp [lowerStr, includesStr, occursIn_nil]
  have hsome : (results.find? (matchKeyword k)).isSome :=
    List.find?_isSome.mpr ⟨r, hr, hmatch⟩
  obtain ⟨r0, hr0⟩ := Option.isSome_iff_exists.mp hsome
  refine ⟨r0, hr0, ?_⟩
  cases results with
  | nil => cases hr
  | cons a rest =>
    unfold selectBestMatch
    rw [List.isEmpty_cons]
    simp only [Bool.false_eq_true, if_false]
    unfold firstPass
    rw [hr0]

theorem selectBestMatch_empty_name_first_pass_witness :
    ∃ r0, [([] : Row)].find? (matchKeyword "min") = some r0 ∧
      selectBestMatch [([] : Row)] ["min"] = r0 :=
  selectBestMatch_empty_name_first_pass [([] : Row)] "min" [] [] (by decide) rfl

end NicheRating
